import Mathlib

/-!
Shallow embedding of the temporal gesture-confirmation core of the
Ryoiki-Tenkai web app:

* `src/web/src/core/GestureRecognizer.js` — the `GestureRecognizer` class
  (constructor, `update`, `handleNoHand`, `_confirmGesture`, `_resetStreak`,
  `reset`) together with its module-level `REQUIRED_HANDS` table and
  `DEFAULT_OPTIONS`.
* `src/web/src/utils/EventEmitter.js` — the `emit` loop over the listener
  snapshot.

JavaScript numbers are modelled as `Int` for the frame/cooldown counters
(the code can be configured with arbitrary integers) and `ℚ` for the
confidence values.  Mutation is modelled by explicit state passing; event
emission (`this.emit(...)`) is modelled by returning the list of events the
call emits, in order.
-/

namespace RyoikiTenkai

/-- Events emitted by the recognizer: `'confirmed'` carries
`{ className, confidence, frameCount }`, `'reset'` carries
`{ previousClass }` (from GestureRecognizer.js `_confirmGesture` /
`handleNoHand`). -/
inductive Event where
  | confirmed (className : String) (confidence : ℚ) (frameCount : Int)
  | reset (previousClass : Option String)
  deriving DecidableEq, Repr

/-- The module-level `REQUIRED_HANDS` table of GestureRecognizer.js:
`{ gojo: 1, ryomen: 2, megumi: 2, unknown: 0 }`; any other key is absent. -/
def REQUIRED_HANDS (className : String) : Option Int :=
  if className = "gojo" then some 1
  else if className = "ryomen" then some 2
  else if className = "megumi" then some 2
  else if className = "unknown" then some 0
  else none

/-- `REQUIRED_HANDS[className] ?? 0` (line 108 of GestureRecognizer.js). -/
def requiredHandsFor (className : String) : Int :=
  (REQUIRED_HANDS className).getD 0

/-- The recognizer options object (`requiredFrames`, `minConfidence`,
`cooldownFrames`). -/
structure Options where
  requiredFrames : Int
  minConfidence : ℚ
  cooldownFrames : Int
  deriving DecidableEq, Repr

/-- `DEFAULT_OPTIONS` of GestureRecognizer.js:
`requiredFrames: 15, minConfidence: 0.85, cooldownFrames: 60`
(`0.85 = mkRat 85 100`). -/
def DEFAULT_OPTIONS : Options :=
  { requiredFrames := 15, minConfidence := mkRat 85 100, cooldownFrames := 60 }

/-- A partial options object passed to the constructor; `none` fields are
absent keys.  `{ ...DEFAULT_OPTIONS, ...options }` overrides exactly the
present keys. -/
structure OptionsOverride where
  requiredFrames : Option Int := none
  minConfidence : Option ℚ := none
  cooldownFrames : Option Int := none
  deriving DecidableEq, Repr

/-- The object spread `{ ...DEFAULT_OPTIONS, ...options }` in the
constructor. -/
def mergeOptions (options : OptionsOverride) : Options :=
  { requiredFrames := options.requiredFrames.getD DEFAULT_OPTIONS.requiredFrames
    minConfidence := options.minConfidence.getD DEFAULT_OPTIONS.minConfidence
    cooldownFrames := options.cooldownFrames.getD DEFAULT_OPTIONS.cooldownFrames }

/-- The mutable fields of a `GestureRecognizer` instance together with its
(immutable after construction) `_opts`. -/
structure RecognizerState where
  opts : Options
  currentClass : Option String
  frameCount : Int
  confirmedClass : Option String
  cooldownCount : Int
  isConfirmed : Bool
  deriving DecidableEq, Repr

/-- The `GestureRecognizer` constructor: merges options over the defaults
and zero-initialises every mutable field.  It performs no validation and
cannot fail. -/
def GestureRecognizer.mk (options : OptionsOverride) : RecognizerState :=
  { opts := mergeOptions options
    currentClass := none
    frameCount := 0
    confirmedClass := none
    cooldownCount := 0
    isConfirmed := false }

/-- `_resetStreak()`: clears `_currentClass` and `_frameCount` only. -/
def resetStreak (s : RecognizerState) : RecognizerState :=
  { s with currentClass := none, frameCount := 0 }

/-- The cooldown decrement at the top of `update`
(`if (this._cooldownCount > 0) this._cooldownCount--`). -/
def cooldownDecrement (s : RecognizerState) : RecognizerState :=
  if s.cooldownCount > 0 then { s with cooldownCount := s.cooldownCount - 1 } else s

/-- `_confirmGesture(className, confidence)`: sets the confirmed flags,
reloads the cooldown and emits one `'confirmed'` event carrying the current
`_frameCount`. -/
def confirmGesture (s : RecognizerState) (className : String) (confidence : ℚ) :
    RecognizerState × List Event :=
  ({ s with isConfirmed := true
            confirmedClass := some className
            cooldownCount := s.opts.cooldownFrames },
   [Event.confirmed className confidence s.frameCount])

/-- The per-frame classifier output `{ className, confidence }` consumed by
`update`. -/
structure InferResult where
  className : String
  confidence : ℚ
  deriving DecidableEq, Repr

/-- `update(inferResult, handCount)` of GestureRecognizer.js, translated
branch for branch: cooldown decrement, the `'unknown'` guard, the
hand-count guard, the confidence guard, the class-switch reseed, and the
same-class increment with the confirmation check. -/
def update (s0 : RecognizerState) (inferResult : InferResult) (handCount : Int) :
    RecognizerState × List Event :=
  let s := cooldownDecrement s0
  if inferResult.className = "unknown" then
    (resetStreak s, [])
  else if 0 < requiredHandsFor inferResult.className ∧
      handCount ≠ requiredHandsFor inferResult.className then
    (resetStreak s, [])
  else if inferResult.confidence < s.opts.minConfidence then
    (resetStreak s, [])
  else if some inferResult.className ≠ s.currentClass then
    ({ resetStreak s with currentClass := some inferResult.className, frameCount := 1 }, [])
  else
    let s1 := { s with frameCount := s.frameCount + 1 }
    if s1.frameCount ≥ s1.opts.requiredFrames ∧ s1.isConfirmed = false ∧
        s1.cooldownCount = 0 then
      confirmGesture s1 inferResult.className inferResult.confidence
    else
      (s1, [])

/-- `handleNoHand()`: while confirmed, clears the flag and emits one
`'reset'` event carrying `_confirmedClass`; in every case it then resets
the streak.  The cooldown counter is untouched. -/
def handleNoHand (s : RecognizerState) : RecognizerState × List Event :=
  if s.isConfirmed then
    (resetStreak { s with isConfirmed := false }, [Event.reset s.confirmedClass])
  else
    (resetStreak s, [])

/-- `reset()`: unconditionally restores every mutable field to its
construction-time default; the method body contains no `emit` call. -/
def reset (s : RecognizerState) : RecognizerState × List Event :=
  ({ s with currentClass := none
            frameCount := 0
            confirmedClass := none
            cooldownCount := 0
            isConfirmed := false },
   [])

/-- Driving `update` over a list of per-frame inputs, concatenating the
emitted events in order. -/
def runUpdates (s : RecognizerState) : List (InferResult × Int) → RecognizerState × List Event
  | [] => (s, [])
  | (r, h) :: rest =>
    let step := update s r h
    let tail := runUpdates step.1 rest
    (tail.1, step.2 ++ tail.2)

/-- Feeding the same frame `n` times in a row. -/
def iterateUpdate (s : RecognizerState) (r : InferResult) (handCount : Int) (n : Nat) :
    RecognizerState × List Event :=
  runUpdates s (List.replicate n (r, handCount))

/-- The listener loop of `EventEmitter.emit` (EventEmitter.js lines 71–76):
after snapshotting the listener array, the code runs
`listeners.forEach(fn => fn(...args))` with no try/catch around the calls.
A listener is modelled as a function from the event payload `α` and the
ambient mutable state `σ` to the new state plus an optional thrown
exception; `forEach` without a catch stops at the first throw and lets the
exception escape to the caller of `emit`. -/
def emitAll {α σ : Type} : List (α → σ → σ × Option String) → α → σ → σ × Option String
  | [], _, st => (st, none)
  | fn :: rest, arg, st =>
    match fn arg st with
    | (st1, none) => emitAll rest arg st1
    | (st1, some e) => (st1, some e)

/-- Three listeners subscribed to one emission: each appends its tag to a
shared log; the second one then throws. -/
def exListeners : List (Unit → List Nat → List Nat × Option String) :=
  [fun _ l => (l ++ [1], none),
   fun _ l => (l ++ [2], some "boom"),
   fun _ l => (l ++ [3], none)]

/-! ### Field-preservation facts about the cooldown decrement -/

@[simp] lemma cooldownDecrement_opts (s : RecognizerState) :
    (cooldownDecrement s).opts = s.opts := by
  unfold cooldownDecrement; split <;> rfl

@[simp] lemma cooldownDecrement_currentClass (s : RecognizerState) :
    (cooldownDecrement s).currentClass = s.currentClass := by
  unfold cooldownDecrement; split <;> rfl

@[simp] lemma cooldownDecrement_frameCount (s : RecognizerState) :
    (cooldownDecrement s).frameCount = s.frameCount := by
  unfold cooldownDecrement; split <;> rfl

@[simp] lemma cooldownDecrement_confirmedClass (s : RecognizerState) :
    (cooldownDecrement s).confirmedClass = s.confirmedClass := by
  unfold cooldownDecrement; split <;> rfl

@[simp] lemma cooldownDecrement_isConfirmed (s : RecognizerState) :
    (cooldownDecrement s).isConfirmed = s.isConfirmed := by
  unfold cooldownDecrement; split <;> rfl

/-! ### Branch characterizations of `update` -/

lemma update_unknown (s : RecognizerState) (r : InferResult) (h : Int)
    (hu : r.className = "unknown") :
    update s r h = (resetStreak (cooldownDecrement s), []) := by
  simp only [update]
  rw [if_pos hu]

lemma update_handMismatch (s : RecognizerState) (r : InferResult) (h : Int)
    (h1 : 0 < requiredHandsFor r.className) (h2 : h ≠ requiredHandsFor r.className) :
    update s r h = (resetStreak (cooldownDecrement s), []) := by
  have hu : r.className ≠ "unknown" := by
    intro he
    rw [he] at h1
    simp [requiredHandsFor, REQUIRED_HANDS] at h1
  simp only [update]
  rw [if_neg hu, if_pos ⟨h1, h2⟩]

lemma update_lowConfidence (s : RecognizerState) (r : InferResult) (h : Int)
    (hu : r.className ≠ "unknown")
    (hh : ¬(0 < requiredHandsFor r.className ∧ h ≠ requiredHandsFor r.className))
    (hc : r.confidence < s.opts.minConfidence) :
    update s r h = (resetStreak (cooldownDecrement s), []) := by
  simp only [update, cooldownDecrement_opts]
  rw [if_neg hu, if_neg hh, if_pos hc]

lemma update_seed (s : RecognizerState) (r : InferResult) (h : Int)
    (hu : r.className ≠ "unknown")
    (hh : ¬(0 < requiredHandsFor r.className ∧ h ≠ requiredHandsFor r.className))
    (hc : ¬(r.confidence < s.opts.minConfidence))
    (hne : some r.className ≠ s.currentClass) :
    update s r h =
      ({ resetStreak (cooldownDecrement s) with
          currentClass := some r.className, frameCount := 1 }, []) := by
  simp only [update, cooldownDecrement_opts, cooldownDecrement_currentClass]
  rw [if_neg hu, if_neg hh, if_neg hc, if_pos hne]

lemma update_continue (s : RecognizerState) (r : InferResult) (h : Int)
    (hu : r.className ≠ "unknown")
    (hh : ¬(0 < requiredHandsFor r.className ∧ h ≠ requiredHandsFor r.className))
    (hc : ¬(r.confidence < s.opts.minConfidence))
    (hsame : s.currentClass = some r.className)
    (hno : ¬(s.frameCount + 1 ≥ s.opts.requiredFrames ∧ s.isConfirmed = false ∧
        (cooldownDecrement s).cooldownCount = 0)) :
    update s r h = ({ cooldownDecrement s with frameCount := s.frameCount + 1 }, []) := by
  simp only [update, cooldownDecrement_opts, cooldownDecrement_currentClass,
    cooldownDecrement_frameCount, cooldownDecrement_isConfirmed]
  rw [if_neg hu, if_neg hh, if_neg hc, if_neg (not_not_intro hsame.symm), if_neg hno]

lemma update_confirm (s : RecognizerState) (r : InferResult) (h : Int)
    (hu : r.className ≠ "unknown")
    (hh : ¬(0 < requiredHandsFor r.className ∧ h ≠ requiredHandsFor r.className))
    (hc : ¬(r.confidence < s.opts.minConfidence))
    (hsame : s.currentClass = some r.className)
    (hthr : s.frameCount + 1 ≥ s.opts.requiredFrames) (hconf : s.isConfirmed = false)
    (hcd : (cooldownDecrement s).cooldownCount = 0) :
    update s r h =
      ({ s with
           frameCount := s.frameCount + 1, isConfirmed := true,
           confirmedClass := some r.className, cooldownCount := s.opts.cooldownFrames },
       [Event.confirmed r.className r.confidence (s.frameCount + 1)]) := by
  simp only [update, cooldownDecrement_opts, cooldownDecrement_currentClass,
    cooldownDecrement_frameCount, cooldownDecrement_isConfirmed]
  rw [if_neg hu, if_neg hh, if_neg hc, if_neg (not_not_intro hsame.symm),
    if_pos ⟨hthr, hconf, hcd⟩]
  unfold confirmGesture
  rcases s with ⟨opts, cur, fc, confc, cd, ic⟩
  by_cases h0 : (0 : Int) < cd <;> simp [cooldownDecrement, h0]

/-- Exhaustive case split over the branches of `update`: every call either
resets the streak, reseeds it at 1, extends it without confirming, or
confirms; a confirmation requires (after the initial cooldown decrement) a
clear confirmed flag, an exhausted cooldown, a streak reaching the
threshold, and a continuing class. -/
lemma update_spec (s : RecognizerState) (r : InferResult) (h : Int) :
    update s r h = (resetStreak (cooldownDecrement s), []) ∨
    update s r h =
      ({ resetStreak (cooldownDecrement s) with
          currentClass := some r.className, frameCount := 1 }, []) ∨
    update s r h = ({ cooldownDecrement s with frameCount := s.frameCount + 1 }, []) ∨
    (s.isConfirmed = false ∧ (cooldownDecrement s).cooldownCount = 0 ∧
      s.frameCount + 1 ≥ s.opts.requiredFrames ∧ s.currentClass = some r.className ∧
      update s r h =
        ({ s with
             frameCount := s.frameCount + 1, isConfirmed := true,
             confirmedClass := some r.className, cooldownCount := s.opts.cooldownFrames },
         [Event.confirmed r.className r.confidence (s.frameCount + 1)])) := by
  by_cases hu : r.className = "unknown"
  · exact Or.inl (update_unknown s r h hu)
  by_cases hh : 0 < requiredHandsFor r.className ∧ h ≠ requiredHandsFor r.className
  · exact Or.inl (update_handMismatch s r h hh.1 hh.2)
  by_cases hc : r.confidence < s.opts.minConfidence
  · exact Or.inl (update_lowConfidence s r h hu hh hc)
  by_cases hne : some r.className = s.currentClass
  · by_cases hcf : s.frameCount + 1 ≥ s.opts.requiredFrames ∧ s.isConfirmed = false ∧
        (cooldownDecrement s).cooldownCount = 0
    · exact Or.inr (Or.inr (Or.inr
        ⟨hcf.2.1, hcf.2.2, hcf.1, hne.symm,
         update_confirm s r h hu hh hc hne.symm hcf.1 hcf.2.1 hcf.2.2⟩))
    · exact Or.inr (Or.inr (Or.inl (update_continue s r h hu hh hc hne.symm hcf)))
  · exact Or.inr (Or.inl (update_seed s r h hu hh hc hne))

/-- `update` never changes `_opts`. -/
lemma update_opts (s : RecognizerState) (r : InferResult) (h : Int) :
    (update s r h).1.opts = s.opts := by
  rcases update_spec s r h with he | he | he | ⟨_, _, _, _, he⟩ <;> rw [he] <;>
    simp [resetStreak]

/-- While the recognizer is in the confirmed state, `update` keeps the flag
set and emits nothing (the confirmation check requires `!this._isConfirmed`). -/
lemma update_isConfirmed_true (s : RecognizerState) (r : InferResult) (h : Int)
    (hc : s.isConfirmed = true) :
    (update s r h).1.isConfirmed = true ∧ (update s r h).2 = [] := by
  rcases update_spec s r h with he | he | he | ⟨hf, _, _, _, _⟩
  · rw [he]; exact ⟨by simp [resetStreak, hc], rfl⟩
  · rw [he]; exact ⟨by simp [resetStreak, hc], rfl⟩
  · rw [he]; exact ⟨by simp [hc], rfl⟩
  · rw [hc] at hf; exact absurd hf (by simp)

/-- `update` never emits a `'reset'` event: its only `emit` call is the
`'confirmed'` one inside `_confirmGesture`. -/
lemma update_no_reset_event (s : RecognizerState) (r : InferResult) (h : Int) :
    ∀ pc, Event.reset pc ∉ (update s r h).2 := by
  intro pc
  rcases update_spec s r h with he | he | he | ⟨_, _, _, _, he⟩ <;> rw [he] <;> simp

/-- The recursion equation of `runUpdates`. -/
lemma runUpdates_cons (s : RecognizerState) (r : InferResult) (h : Int)
    (rest : List (InferResult × Int)) :
    runUpdates s ((r, h) :: rest) =
      ((runUpdates (update s r h).1 rest).1,
       (update s r h).2 ++ (runUpdates (update s r h).1 rest).2) := rfl

/-- Splitting a frame sequence: the second half resumes from the state the
first half reaches, and the event logs concatenate. -/
lemma runUpdates_append (s : RecognizerState) (l₁ l₂ : List (InferResult × Int)) :
    runUpdates s (l₁ ++ l₂) =
      ((runUpdates (runUpdates s l₁).1 l₂).1,
       (runUpdates s l₁).2 ++ (runUpdates (runUpdates s l₁).1 l₂).2) := by
  induction l₁ generalizing s with
  | nil => simp [runUpdates]
  | cons p rest ih =>
    rcases p with ⟨r, h⟩
    rw [List.cons_append, runUpdates_cons, runUpdates_cons, ih]
    simp [runUpdates_cons]

/-- Once confirmed, no sequence of `update` calls emits anything. -/
lemma runUpdates_confirmed (frames : List (InferResult × Int)) :
    ∀ s : RecognizerState, s.isConfirmed = true → (runUpdates s frames).2 = [] := by
  induction frames with
  | nil => intro s _; rfl
  | cons p rest ih =>
    intro s hc
    rcases p with ⟨r, h⟩
    rw [runUpdates_cons]
    have hstep := update_isConfirmed_true s r h hc
    rw [hstep.2, ih _ hstep.1]
    rfl

/-- Accumulating a qualifying streak from the default construction state:
after `k ∈ [1, 14]` identical qualifying frames the default-configured
recognizer (threshold 15) carries a streak of length `k` for the frame's
class and has emitted nothing. -/
lemma streak_accumulates (r : InferResult) (h : Int)
    (hu : r.className ≠ "unknown")
    (hh : ¬(0 < requiredHandsFor r.className ∧ h ≠ requiredHandsFor r.className))
    (hc : ¬(r.confidence < mkRat 85 100)) :
    ∀ k : Nat, 1 ≤ k → k ≤ 14 →
      iterateUpdate (GestureRecognizer.mk {}) r h k =
        ({ GestureRecognizer.mk {} with
             currentClass := some r.className, frameCount := (k : Int) }, []) := by
  intro k
  induction k with
  | zero =>
    intro h1 _
    exact absurd h1 (by norm_num)
  | succ k ih =>
    intro h1 h14
    rcases Nat.eq_zero_or_pos k with hk | hk
    · subst hk
      have hseed := update_seed (GestureRecognizer.mk {}) r h hu hh hc
        (Option.some_ne_none r.className)
      simp only [iterateUpdate, List.replicate_one, runUpdates_cons, hseed, runUpdates]
      simp [GestureRecognizer.mk, mergeOptions, DEFAULT_OPTIONS, cooldownDecrement,
        resetStreak]
    · have ihe := ih hk (by omega)
      simp only [iterateUpdate] at ihe ⊢
      rw [List.replicate_succ', runUpdates_append, ihe]
      have hcont := update_continue
        ({ GestureRecognizer.mk {} with
             currentClass := some r.className, frameCount := (k : Int) }) r h hu hh hc rfl
        (by
          intro hcon
          have hge := hcon.1
          simp [GestureRecognizer.mk, mergeOptions, DEFAULT_OPTIONS] at hge
          omega)
      simp only [runUpdates_cons, hcont, runUpdates]
      simp [GestureRecognizer.mk, mergeOptions, DEFAULT_OPTIONS, cooldownDecrement,
        resetStreak]

/-- Any number of `'unknown'` frames emits nothing. -/
lemma iterate_unknown_no_events (c : ℚ) (h : Int) :
    ∀ (n : Nat) (s : RecognizerState), (iterateUpdate s ⟨"unknown", c⟩ h n).2 = [] := by
  intro n
  induction n with
  | zero => intro s; rfl
  | succ n ih =>
    intro s
    have hstep := update_unknown s ⟨"unknown", c⟩ h rfl
    simp only [iterateUpdate, List.replicate_succ, runUpdates_cons, hstep]
    have ihe := ih (resetStreak (cooldownDecrement s))
    simp only [iterateUpdate] at ihe
    simp [ihe]

/-- Any number of `("megumi", 0.95)` frames with one hand detected (megumi
requires two) leaves the streak empty and emits nothing. -/
lemma iterate_wrong_hands_resets :
    ∀ (n : Nat), 1 ≤ n → ∀ s : RecognizerState,
      (iterateUpdate s ⟨"megumi", mkRat 95 100⟩ 1 n).1.frameCount = 0 ∧
      (iterateUpdate s ⟨"megumi", mkRat 95 100⟩ 1 n).2 = [] := by
  intro n
  induction n with
  | zero =>
    intro h1
    exact absurd h1 (by norm_num)
  | succ n ih =>
    intro _ s
    have hstep := update_handMismatch s ⟨"megumi", mkRat 95 100⟩ 1 (by decide) (by decide)
    rcases Nat.eq_zero_or_pos n with hn | hn
    · subst hn
      simp only [iterateUpdate, List.replicate_one, runUpdates_cons, hstep, runUpdates]
      simp [resetStreak]
    · have ihe := ih hn (resetStreak (cooldownDecrement s))
      simp only [iterateUpdate] at ihe
      simp only [iterateUpdate, List.replicate_succ, runUpdates_cons, hstep]
      simp [ihe.1, ihe.2]

/-! ### Claim theorems -/

/-- C1 counterexample: the code only guards the literal class name
`'unknown'`.  Feeding the unrecognized class name "fakeclass" (confidence 1,
hand count 0) to a recognizer built with `requiredFrames = 2` does not reset
the streak — `_currentClass` becomes "fakeclass" — and a second such frame
produces a `'confirmed'` emission, contradicting the claim that unrecognized
class names always reset and can never confirm. -/
theorem unrecognized_class_confirms_ce :
    (update (GestureRecognizer.mk { requiredFrames := some 2 })
        ⟨"fakeclass", 1⟩ 0).1.currentClass = some "fakeclass" ∧
    (iterateUpdate (GestureRecognizer.mk { requiredFrames := some 2 })
        ⟨"fakeclass", 1⟩ 0 2).2 = [Event.confirmed "fakeclass" 1 2] := by
  decide

/-- C1 (amended): only the literal reserved class name "unknown" is
guarded: a frame classified "unknown" always resets the streak
(`_currentClass` cleared, `_frameCount` zeroed) and returns without
confirming, and any number of "unknown" frames emits nothing; no exception
is raised.  (Class names absent from `REQUIRED_HANDS` are *not* reset: as
the counterexample shows, they are treated as unconstrained and can be
confirmed.) -/
theorem unknown_class_always_resets (s : RecognizerState) (c : ℚ) (h : Int) (n : Nat) :
    update s ⟨"unknown", c⟩ h = (resetStreak (cooldownDecrement s), []) ∧
    (iterateUpdate s ⟨"unknown", c⟩ h n).2 = [] :=
  ⟨update_unknown s ⟨"unknown", c⟩ h rfl, iterate_unknown_no_events c h n s⟩

/-- C2 counterexample: constructing with `requiredFrames = 0` (non-positive),
`minConfidence = 2` (outside [0,1]) and `cooldownFrames = -3` (negative)
succeeds silently — there is no `ConfigurationError` anywhere in the code —
and the resulting instance is usable: `update` processes a frame normally. -/
theorem invalid_config_constructs_ce :
    GestureRecognizer.mk
        { requiredFrames := some 0, minConfidence := some 2, cooldownFrames := some (-3) } =
      { opts := { requiredFrames := 0, minConfidence := 2, cooldownFrames := -3 },
        currentClass := none, frameCount := 0, confirmedClass := none,
        cooldownCount := 0, isConfirmed := false } ∧
    (update (GestureRecognizer.mk
        { requiredFrames := some 0, minConfidence := some 2, cooldownFrames := some (-3) })
        ⟨"gojo", 1⟩ 1).1.currentClass = none := by
  decide

/-- C2 (amended): the constructor validates nothing: for every options
object — including non-positive `requiredFrames`, out-of-range
`minConfidence` and negative `cooldownFrames` — construction succeeds,
merging the supplied fields over the defaults and zero-initialising the
mutable state, and the instance is usable afterward (`update` runs and
keeps the merged options). -/
theorem constructor_never_validates (o : OptionsOverride) (r : InferResult) (h : Int) :
    GestureRecognizer.mk o =
      { opts := mergeOptions o, currentClass := none, frameCount := 0,
        confirmedClass := none, cooldownCount := 0, isConfirmed := false } ∧
    (update (GestureRecognizer.mk o) r h).1.opts = mergeOptions o :=
  ⟨rfl, update_opts _ r h⟩

/-- C3 counterexample: three listeners of one emission, the second of which
throws: `emit` aborts — the exception escapes to the caller (the result
carries the thrown error) and the third listener never runs (the shared log
stops at `[1, 2]`), contradicting per-listener isolation. -/
theorem listener_throw_propagates_ce :
    emitAll exListeners () [] = ([1, 2], some "boom") := rfl

/-- C3 (amended): `EventEmitter.emit` has no per-listener isolation: when a
listener of an emission throws, the exception propagates to the caller of
the triggering operation and the remaining listeners of that same emission
do not run (the result is independent of them). -/
theorem listener_throw_aborts_emission (α σ : Type)
    (pre post : List (α → σ → σ × Option String)) (fn : α → σ → σ × Option String)
    (arg : α) (st st1 st2 : σ) (e : String)
    (hpre : emitAll pre arg st = (st1, none)) (hfn : fn arg st1 = (st2, some e)) :
    emitAll (pre ++ fn :: post) arg st = (st2, some e) := by
  induction pre generalizing st with
  | nil =>
    simp only [emitAll] at hpre
    injection hpre with h1 h2
    subst h1
    simp [emitAll, hfn]
  | cons f rest ih =>
    simp only [List.cons_append, emitAll] at hpre ⊢
    rcases hf : f arg st with ⟨st', o⟩
    rw [hf] at hpre
    cases o with
    | none => exact ih st' hpre
    | some e1 => simp at hpre

/-- Witness for the amended C3: concrete listeners, the middle one throwing
"oops"; emit from log `[]` stops with log `[1, 7]` and the error. -/
theorem listener_throw_aborts_emission_witness :
    emitAll
        ([fun _ l => (l ++ [1], none)] ++
          (fun _ l => (l ++ [7], some "oops")) ::
            [fun (_ : Unit) (l : List Nat) => (l ++ [3], none)])
        () [] = ([1, 7], some "oops") :=
  listener_throw_aborts_emission Unit (List Nat) _ _ _ () [] [1] [1, 7] "oops" rfl rfl

/-- C4: a qualifying frame whose class differs from the accumulating class
resets the streak and reseeds `_currentClass` to the new class with
`_frameCount = 1` within the same call, emitting nothing — so a freshly
seeded streak can never confirm in the call that created it, whatever
`requiredFrames` is (including 1). -/
theorem class_switch_seeds_streak (s : RecognizerState) (r : InferResult) (h : Int)
    (hu : r.className ≠ "unknown")
    (hh : ¬(0 < requiredHandsFor r.className ∧ h ≠ requiredHandsFor r.className))
    (hc : ¬(r.confidence < s.opts.minConfidence))
    (hne : some r.className ≠ s.currentClass) :
    update s r h =
      ({ resetStreak (cooldownDecrement s) with
           currentClass := some r.className, frameCount := 1 }, []) :=
  update_seed s r h hu hh hc hne

/-- Witness for C4 with `requiredFrames = 1`: the first qualifying "gojo"
frame seeds a streak of 1 and does not confirm. -/
theorem class_switch_seeds_streak_witness :
    update (GestureRecognizer.mk { requiredFrames := some 1 }) ⟨"gojo", 1⟩ 1 =
      ({ opts := { requiredFrames := 1, minConfidence := mkRat 85 100, cooldownFrames := 60 },
         currentClass := some "gojo", frameCount := 1, confirmedClass := none,
         cooldownCount := 0, isConfirmed := false }, []) := by
  have hmain := class_switch_seeds_streak (GestureRecognizer.mk { requiredFrames := some 1 })
    ⟨"gojo", 1⟩ 1 (by decide) (by decide) (by decide) (by decide)
  exact hmain.trans (by decide)

/-- C5: with the default configuration (threshold 15, cooldown 60), 14
consecutive qualifying frames of one class leave `isConfirmed = false` with
nothing emitted; the 15th yields exactly one Confirmed emission carrying the
class, its confidence and streak length 15, and sets `isConfirmed`,
`_confirmedClass` and `_cooldownCount = 60`. -/
theorem threshold_confirmation (r : InferResult) (h : Int)
    (hu : r.className ≠ "unknown")
    (hh : ¬(0 < requiredHandsFor r.className ∧ h ≠ requiredHandsFor r.className))
    (hc : ¬(r.confidence < mkRat 85 100)) :
    ((iterateUpdate (GestureRecognizer.mk {}) r h 14).1.isConfirmed = false ∧
     (iterateUpdate (GestureRecognizer.mk {}) r h 14).2 = []) ∧
    (iterateUpdate (GestureRecognizer.mk {}) r h 15).2 =
        [Event.confirmed r.className r.confidence 15] ∧
    (iterateUpdate (GestureRecognizer.mk {}) r h 15).1.isConfirmed = true ∧
    (iterateUpdate (GestureRecognizer.mk {}) r h 15).1.confirmedClass = some r.className ∧
    (iterateUpdate (GestureRecognizer.mk {}) r h 15).1.cooldownCount = 60 := by
  have h14 := streak_accumulates r h hu hh hc 14 (by norm_num) (by norm_num)
  have hconf := update_confirm
    ({ GestureRecognizer.mk {} with
         currentClass := some r.className, frameCount := ((14 : Nat) : Int) })
    r h hu hh hc rfl (by norm_num [GestureRecognizer.mk, mergeOptions, DEFAULT_OPTIONS])
    rfl (by simp [cooldownDecrement, GestureRecognizer.mk])
  constructor
  · rw [h14]
    exact ⟨rfl, rfl⟩
  · simp only [iterateUpdate] at h14 ⊢
    rw [show List.replicate (15 : Nat) ((r, h) : InferResult × Int) =
          List.replicate 14 (r, h) ++ [(r, h)] from List.replicate_succ' 14 (r, h)]
    rw [runUpdates_append, h14]
    simp only [runUpdates_cons, hconf, runUpdates]
    norm_num [GestureRecognizer.mk, mergeOptions, DEFAULT_OPTIONS]

/-- Witness for C5 at `("gojo", 0.9, 1)`. -/
theorem threshold_confirmation_witness :
    (iterateUpdate (GestureRecognizer.mk {}) ⟨"gojo", mkRat 9 10⟩ 1 14).1.isConfirmed = false ∧
    (iterateUpdate (GestureRecognizer.mk {}) ⟨"gojo", mkRat 9 10⟩ 1 15).2 =
      [Event.confirmed "gojo" (mkRat 9 10) 15] := by
  have hmain := threshold_confirmation ⟨"gojo", mkRat 9 10⟩ 1
    (by decide) (by decide) (by decide)
  exact ⟨hmain.1.1, hmain.2.1⟩

/-- C6: a Confirmed emission requires (at the moment of the check, i.e.
after the start-of-call decrement) a clear confirmed flag, a fully elapsed
cooldown, and a fresh streak reaching the threshold; the cooldown counter is
decremented at the start of every call, before all other branches, and ends
at that decremented value except when a confirmation reloads it; and while
`isConfirmed` is still true no sequence of update calls emits anything. -/
theorem cooldown_suppression (s : RecognizerState) (r : InferResult) (h : Int) :
    ((update s r h).2 ≠ [] →
        s.isConfirmed = false ∧ (cooldownDecrement s).cooldownCount = 0 ∧
        s.frameCount + 1 ≥ s.opts.requiredFrames ∧ s.currentClass = some r.className) ∧
    ((update s r h).1.cooldownCount =
        if (update s r h).2 = [] then (cooldownDecrement s).cooldownCount
        else s.opts.cooldownFrames) ∧
    (s.isConfirmed = true →
      ∀ frames : List (InferResult × Int), (runUpdates s frames).2 = []) := by
  refine ⟨?_, ?_, fun hc frames => runUpdates_confirmed frames s hc⟩
  · intro hne
    rcases update_spec s r h with he | he | he | ⟨h1, h2, h3, h4, he⟩
    · rw [he] at hne; exact absurd rfl hne
    · rw [he] at hne; exact absurd rfl hne
    · rw [he] at hne; exact absurd rfl hne
    · exact ⟨h1, h2, h3, h4⟩
  · rcases update_spec s r h with he | he | he | ⟨h1, h2, h3, h4, he⟩ <;> rw [he] <;>
      simp [resetStreak]

/-- Witness for C6: a just-confirmed state (cooldown 60): feeding another
qualifying frame emits nothing and only decrements the cooldown to 59; and
the confirm branch at a concrete input requires the decremented cooldown to
be 0. -/
theorem cooldown_suppression_witness :
    (update
        { opts := DEFAULT_OPTIONS, currentClass := some "gojo", frameCount := 15,
          confirmedClass := some "gojo", cooldownCount := 60, isConfirmed := true }
        ⟨"gojo", 1⟩ 1).1.cooldownCount = 59 ∧
    (runUpdates
        { opts := DEFAULT_OPTIONS, currentClass := some "gojo", frameCount := 15,
          confirmedClass := some "gojo", cooldownCount := 60, isConfirmed := true }
        [(⟨"gojo", 1⟩, 1)]).2 = [] ∧
    (cooldownDecrement
        { opts := DEFAULT_OPTIONS, currentClass := some "gojo", frameCount := 14,
          confirmedClass := none, cooldownCount := 0, isConfirmed := false }).cooldownCount
      = 0 := by
  have h1 := (cooldown_suppression
    { opts := DEFAULT_OPTIONS, currentClass := some "gojo", frameCount := 15,
      confirmedClass := some "gojo", cooldownCount := 60, isConfirmed := true }
    ⟨"gojo", 1⟩ 1).2
  have h2 := (cooldown_suppression
    { opts := DEFAULT_OPTIONS, currentClass := some "gojo", frameCount := 14,
      confirmedClass := none, cooldownCount := 0, isConfirmed := false }
    ⟨"gojo", 1⟩ 1).1 (by decide)
  exact ⟨h1.1.trans (by decide), h1.2 rfl [(⟨"gojo", 1⟩, 1)], h2.2.1⟩

/-- C7: a class with a positive required hand count qualifies only at the
exact hand count: any mismatch resets the streak and returns without
emitting; repeatedly feeding ("megumi", 0.95) with one hand — megumi
requires exactly two — never confirms and leaves the streak at 0 after every
call. -/
theorem feature_count_gating (s : RecognizerState) (r : InferResult) (h : Int) (n : Nat) :
    (0 < requiredHandsFor r.className → h ≠ requiredHandsFor r.className →
      update s r h = (resetStreak (cooldownDecrement s), [])) ∧
    (1 ≤ n →
      (iterateUpdate s ⟨"megumi", mkRat 95 100⟩ 1 n).1.frameCount = 0 ∧
      (iterateUpdate s ⟨"megumi", mkRat 95 100⟩ 1 n).2 = []) :=
  ⟨fun h1 h2 => update_handMismatch s r h h1 h2,
   fun hn => iterate_wrong_hands_resets n hn s⟩

/-- Witness for C7: one call with ("megumi", 0.95, 1) resets, and three
such calls emit nothing. -/
theorem feature_count_gating_witness :
    update (GestureRecognizer.mk {}) ⟨"megumi", mkRat 95 100⟩ 1 =
      (resetStreak (cooldownDecrement (GestureRecognizer.mk {})), []) ∧
    (iterateUpdate (GestureRecognizer.mk {}) ⟨"megumi", mkRat 95 100⟩ 1 3).2 = [] := by
  have hmain := feature_count_gating (GestureRecognizer.mk {}) ⟨"megumi", mkRat 95 100⟩ 1 3
  exact ⟨hmain.1 (by decide) (by decide), (hmain.2 (by norm_num)).2⟩

/-- C8: `handleNoHand` while confirmed clears the flag and emits exactly
one Reset carrying `_confirmedClass`, then resets the streak, leaving the
cooldown counter untouched; while not confirmed it emits nothing and only
resets the streak. -/
theorem no_signal_reset (s : RecognizerState) :
    (s.isConfirmed = true →
      handleNoHand s =
        ({ s with isConfirmed := false, currentClass := none, frameCount := 0 },
         [Event.reset s.confirmedClass])) ∧
    (s.isConfirmed = false →
      handleNoHand s = ({ s with currentClass := none, frameCount := 0 }, [])) := by
  constructor
  · intro hc
    simp [handleNoHand, hc, resetStreak]
  · intro hc
    simp [handleNoHand, hc, resetStreak]

/-- Witness for C8: a confirmed "gojo" state emits one Reset with
`previousClass = some "gojo"` and keeps its cooldown of 60. -/
theorem no_signal_reset_witness :
    handleNoHand
        { opts := DEFAULT_OPTIONS, currentClass := some "gojo", frameCount := 15,
          confirmedClass := some "gojo", cooldownCount := 60, isConfirmed := true } =
      ({ opts := DEFAULT_OPTIONS, currentClass := none, frameCount := 0,
         confirmedClass := some "gojo", cooldownCount := 60, isConfirmed := false },
       [Event.reset (some "gojo")]) := by
  have hmain := (no_signal_reset
    { opts := DEFAULT_OPTIONS, currentClass := some "gojo", frameCount := 15,
      confirmedClass := some "gojo", cooldownCount := 60, isConfirmed := true }).1 rfl
  exact hmain.trans (by decide)

/-- C9: `reset()` restores every mutable field to its construction-time
default — including the cooldown — emits nothing, and is idempotent. -/
theorem hard_reset_idempotent (s : RecognizerState) :
    reset s =
      ({ opts := s.opts, currentClass := none, frameCount := 0,
         confirmedClass := none, cooldownCount := 0, isConfirmed := false }, []) ∧
    reset (reset s).1 = reset s :=
  ⟨rfl, rfl⟩

/-- C10: `update` never clears the confirmed flag (only `handleNoHand` and
`reset` do) and never emits a Reset notification; its validation failures
only reset the streak. -/
theorem update_preserves_confirmation (s : RecognizerState) (r : InferResult) (h : Int) :
    (s.isConfirmed = true → (update s r h).1.isConfirmed = true) ∧
    (∀ pc, Event.reset pc ∉ (update s r h).2) :=
  ⟨fun hc => (update_isConfirmed_true s r h hc).1, update_no_reset_event s r h⟩

/-- Witness for C10: an "unknown" frame fed to a confirmed state leaves the
flag set. -/
theorem update_preserves_confirmation_witness :
    (update
        { opts := DEFAULT_OPTIONS, currentClass := some "gojo", frameCount := 15,
          confirmedClass := some "gojo", cooldownCount := 60, isConfirmed := true }
        ⟨"unknown", 0⟩ 0).1.isConfirmed = true :=
  (update_preserves_confirmation _ _ _).1 rfl

end RyoikiTenkai
